import Mathlib

/-!
# redis3m `connection_pool`: a shallow embedding

The embedding follows `src/connection_pool.cpp` function by function.

* The collaborators the pool calls into (the resolver, `connection::create`,
  `append`/`get_reply`, `run`, `std::random_shuffle`, `boost::lexical_cast`)
  are fields of an environment `Env`.  Every effectful collaborator receives the
  history of interactions made so far, so its answer may change from one call to
  the next (a master that comes up on the third attempt, a sentinel that
  answers differently on a re-query).
* Every function returns its outcome (`Except error _`) together with the
  extended history, also when it throws, so that statements can speak about
  what was attempted.
* `REDIS3M_LOG` calls and the mutex are left out: logging has no effect on
  control flow and the model is sequential.
* The cache `std::set<connection::ptr_t>` is the list of its elements in
  iteration order and an iterator is a position in that list.  The loop of
  `get` calls `connections.erase(it)` and then uses `it` again (`it->get()`,
  `*it`, `++it`).  The C++ standard gives no meaning to these uses: what the
  process observes depends on the shape of the tree and on what the allocator
  did with the freed node.  The model therefore takes the observation from the
  environment (`Env.after_erase`): the access faults and the process is killed,
  or the liveness check through the erased iterator reports true and `*it`
  yields some connection, or it reports false and `++it` leaves the iterator at
  some position of the remaining set or at `end()`.
-/

namespace redis3m

/-- Role tag of a connection (`connection::role_t`). -/
inductive role_t where
  | ANY
  | MASTER
  | SLAVE
deriving DecidableEq, Repr

/-- Modelled from the spec: the `connection` class (its header is not part of
the sources).  A connection has an identity (`ptr`, the pointee of the shared
pointer), the role tag `_role` the pool writes, and `is_valid`, what its
liveness check `is_valid()` reports when it is called on the object. -/
structure connection where
  ptr : Nat
  _role : role_t
  is_valid : Bool
deriving DecidableEq, Repr

/-- Modelled from the spec: the `reply` class; a reply is either a scalar
string or an ordered sequence of replies.  `str()` of a sequence is the empty
string and `elements()` of a scalar is the empty sequence. -/
inductive reply where
  | string (s : String)
  | array (elems : List reply)

/-- Accessor `reply::str()`. -/
def reply.str : reply → String
  | .string s => s
  | .array _ => ""

/-- Accessor `reply::elements()`. -/
def reply.elements : reply → List reply
  | .string _ => []
  | .array es => es

/-- Ways in which a function of the pool ends without returning.
`out_of_range` is thrown by `std::vector::at`, `bad_lexical_cast` by
`boost::lexical_cast`, `connection_error` stands for whatever
`connection::run` throws.  `killed` is not an exception: the process was
killed by a fault on the use of an erased iterator; nothing catches it and
only the cache lookup of `get` produces it. -/
inductive error where
  | cannot_find_sentinel (what : String)
  | cannot_find_slave
  | cannot_find_master (what : String)
  | out_of_range
  | bad_lexical_cast
  | connection_error (what : String)
  | killed
deriving DecidableEq, Repr

/-- What the process observes when the loop of `get` uses the iterator after
`connections.erase(it)`: with `killed` the access faults and the process is
killed; with `live c` the call `it->get()->is_valid()` reports true and `*it`
yields `c`; with `dead_then it` the call reports false and `++it` leaves the
iterator at position `it` of the remaining set, which is `end()` when `it` is
not smaller than its size. -/
inductive stale_use where
  | killed
  | live (c : connection)
  | dead_then (it : Nat)

/-- One interaction of the pool with a collaborator. -/
inductive Event where
  | get_addresses (hostname : String)
  | create (host : String) (port : Nat)
  | append (c : connection) (cmd : List String)
  | get_reply (c : connection)
  | run (c : connection) (cmd : List String)
  | sleep (seconds : Nat)
deriving DecidableEq, Repr

/-- The collaborators.  `create` answers `none` when `connection::create`
throws `unable_to_connect`; `lexical_cast` answers `none` when
`boost::lexical_cast<unsigned int>` throws; `run` answers `.error _` when
`connection::run` throws.  `random_shuffle` returns a rearrangement of its
argument.  `after_erase connections it` is what the process observes when it
uses the iterator at position `it` of the set `connections` after having
erased the element at that position. -/
structure Env where
  after_erase : List connection → Nat → stale_use
  get_addresses : List Event → String → List String
  create : List Event → String → Nat → Option connection
  get_reply : List Event → connection → reply
  run : List Event → connection → List String → Except error reply
  lexical_cast : String → Option Nat
  random_shuffle : List Event → List reply → List reply
  shuffle_perm : ∀ t l, List.Perm (random_shuffle t l) l

/-- State of a `connection_pool` object: the configuration set by the
constructor and `connections`, the cache in iteration order. -/
structure connection_pool where
  sentinel_host : String
  master_name : String
  sentinel_port : Nat
  _database : Nat
  connections : List connection

/-- Checked indexing `std::vector::at`. -/
def vector_at {α : Type} (v : List α) (i : Nat) : Except error α :=
  match v[i]? with
  | some x => .ok x
  | none => .error .out_of_range

/-- The `BOOST_FOREACH` loop of `sentinel_connection` over the endpoints that
are still to be tried. -/
def sentinel_foreach (env : Env) (sentinel_port : Nat) :
    List String → List Event → Except error connection × List Event
  | [], t => (.error (.cannot_find_sentinel "Cannot find sentinel"), t)
  | real_sentinel :: rest, t =>
    match env.create t real_sentinel sentinel_port with
    | some c => (.ok c, t ++ [Event.create real_sentinel sentinel_port])
    | none => sentinel_foreach env sentinel_port rest
        (t ++ [Event.create real_sentinel sentinel_port])

/-- Function `connection_pool::sentinel_connection`. -/
def sentinel_connection (env : Env) (p : connection_pool) (t : List Event) :
    Except error connection × List Event :=
  let real_sentinels := env.get_addresses t p.sentinel_host
  sentinel_foreach env p.sentinel_port real_sentinels
    (t ++ [Event.get_addresses p.sentinel_host])

/-- Body of the loop of `create_slave_connection` over the shuffled records
from the iterator to the end. -/
def slaves_loop (env : Env) :
    List reply → List Event → Except error connection × List Event
  | [], t => (.error .cannot_find_slave, t)
  | it :: rest, t =>
    let properties := it.elements
    match vector_at properties 9 with
    | .error e => (.error e, t)
    | .ok flag =>
      if flag.str = "slave" then
        match vector_at properties 3 with
        | .error e => (.error e, t)
        | .ok h =>
          let host := h.str
          match vector_at properties 5 with
          | .error e => (.error e, t)
          | .ok pt =>
            match env.lexical_cast pt.str with
            | none => (.error .bad_lexical_cast, t)
            | some port =>
              match env.create t host port with
              | some c => (.ok c, t ++ [Event.create host port])
              | none => slaves_loop env rest (t ++ [Event.create host port])
      else slaves_loop env rest t

/-- Function `connection_pool::create_slave_connection`. -/
def create_slave_connection (env : Env) (p : connection_pool) (t : List Event) :
    Except error connection × List Event :=
  match sentinel_connection env p t with
  | (.error e, t1) => (.error e, t1)
  | (.ok sentinel, t1) =>
    let t2 := t1 ++ [Event.append sentinel ["SENTINEL", "slaves", p.master_name]]
    let response := env.get_reply t2 sentinel
    let t3 := t2 ++ [Event.get_reply sentinel]
    let slaves := env.random_shuffle t3 response.elements
    slaves_loop env slaves t3

/-- The `while (connection_retries < 5)` loop of `create_master_connection`.
The counter is carried as the number of iterations that are left:
`left = 5 - connection_retries`. -/
def master_while (env : Env) (p : connection_pool) (sentinel : connection) :
    Nat → List Event → Except error connection × List Event
  | 0, t => (.error (.cannot_find_master
      ("Unable to find master of name: " ++ p.master_name ++ " (too much retries")), t)
  | left + 1, t =>
    let t1 := t ++ [Event.append sentinel
      ["SENTINEL", "get-master-addr-by-name", p.master_name]]
    let response := env.get_reply t1 sentinel
    let t2 := t1 ++ [Event.get_reply sentinel]
    match vector_at response.elements 0 with
    | .error e => (.error e, t2)
    | .ok e0 =>
      let master_ip := e0.str
      match vector_at response.elements 1 with
      | .error e => (.error e, t2)
      | .ok e1 =>
        match env.lexical_cast e1.str with
        | none => (.error .bad_lexical_cast, t2)
        | some master_port =>
          match env.create t2 master_ip master_port with
          | some c => (.ok c, t2 ++ [Event.create master_ip master_port])
          | none => master_while env p sentinel left
              (t2 ++ [Event.create master_ip master_port, Event.sleep 5])

/-- Function `connection_pool::create_master_connection`. -/
def create_master_connection (env : Env) (p : connection_pool) (t : List Event) :
    Except error connection × List Event :=
  match sentinel_connection env p t with
  | (.error e, t1) => (.error e, t1)
  | (.ok sentinel, t1) => master_while env p sentinel 5 t1

/-- Algorithm `std::find_if` on the cache: the elements before the returned
iterator and the elements from the iterator to the end. -/
def find_if (pred : connection → Bool) :
    List connection → List connection × List connection
  | [] => ([], [])
  | c :: cs =>
    if pred c then ([], c :: cs)
    else ((c :: (find_if pred cs).1), (find_if pred cs).2)

/-- The `for (; it != connections.end(); ++it)` loop of `get` on the set
`connections` with the iterator at position `it`.  The body erases the
designated element and then reads through the erased iterator; what it
observes is `env.after_erase`.  Returns `ret` (or `killed`) and the set the
loop leaves.  Every iteration erases one element, so the first argument, the
number of iterations allowed, is never exhausted when it starts at the size of
the set (`erase_loop_fuel`). -/
def erase_loop (env : Env) :
    Nat → List connection → Nat → Except error (Option connection) × List connection
  | 0, connections, _ => (.ok none, connections)
  | fuel + 1, connections, it =>
    match connections[it]? with
    | none => (.ok none, connections)
    | some _ =>
      match env.after_erase connections it with
      | .killed => (.error .killed, connections.eraseIdx it)
      | .live c => (.ok (some c), connections.eraseIdx it)
      | .dead_then it1 => erase_loop env fuel (connections.eraseIdx it) it1

/-- The first `switch (type)` of `get`: where the iterator starts. -/
def scan_start (type : role_t) (connections : List connection) :
    List connection × List connection :=
  match type with
  | .ANY => ([], connections)
  | .MASTER => find_if (fun c => decide (c._role = type)) connections
  | .SLAVE => find_if (fun c => decide (c._role = type)) connections

/-- The cache lookup of `get` (between `lock` and `unlock`): the iterator
starts at the position `scan_start` determines, that is, behind the elements
in front of it. -/
def cache_scan (env : Env) (type : role_t) (connections : List connection) :
    Except error (Option connection) × List connection :=
  erase_loop env connections.length connections (scan_start type connections).1.length

/-- The assignment `ret->_role = r` after a creation that returned. -/
def set_role (r : role_t) :
    Except error connection × List Event → Except error connection × List Event
  | (.ok c, t) => (.ok { c with _role := r }, t)
  | (.error e, t) => (.error e, t)

/-- The second `switch (type)` of `get`, entered when `ret` is null, with the
fall-through from `ANY` into `MASTER` when `cannot_find_slave` is caught. -/
def create_switch (env : Env) (p : connection_pool) (type : role_t) (t : List Event) :
    Except error connection × List Event :=
  match type with
  | .SLAVE => set_role .SLAVE (create_slave_connection env p t)
  | .ANY =>
    match create_slave_connection env p t with
    | (.ok c, t1) => (.ok { c with _role := .SLAVE }, t1)
    | (.error .cannot_find_slave, t1) =>
      set_role .MASTER (create_master_connection env p t1)
    | (.error e, t1) => (.error e, t1)
  | .MASTER => set_role .MASTER (create_master_connection env p t)

/-- The block `if (_database != 0) ret->run(SELECT ...)`. -/
def select_db (env : Env) (p : connection_pool) :
    Except error connection × List Event → Except error connection × List Event
  | (.error e, t) => (.error e, t)
  | (.ok c, t) =>
    if p._database ≠ 0 then
      match env.run t c ["SELECT", toString p._database] with
      | .ok _ => (.ok c, t ++ [Event.run c ["SELECT", toString p._database]])
      | .error e => (.error e, t ++ [Event.run c ["SELECT", toString p._database]])
    else (.ok c, t)

/-- Function `connection_pool::get`: the outcome, the pool afterwards and the
history afterwards. -/
def get (env : Env) (p : connection_pool) (type : role_t) (t : List Event) :
    Except error connection × connection_pool × List Event :=
  let scanned := cache_scan env type p.connections
  let p1 : connection_pool := { p with connections := scanned.2 }
  match scanned.1 with
  | .error e => (.error e, p1, t)
  | .ok (some c) => (.ok c, p1, t)
  | .ok none =>
    let r := select_db env p (create_switch env p type t)
    (r.1, p1, r.2)

/-! ## Vocabulary of the statements -/

/-- Classifier: a `connection::run` call. -/
def Event.is_run : Event → Bool
  | .run _ _ => true
  | _ => false

/-- Classifier: a `sleep` call. -/
def Event.is_sleep : Event → Bool
  | .sleep _ => true
  | _ => false

/-- Classifier: a `connection::create` call. -/
def Event.is_create : Event → Bool
  | .create _ _ => true
  | _ => false

/-- Classifier: an `append` call (a query sent to the sentinel). -/
def Event.is_append : Event → Bool
  | .append _ _ => true
  | _ => false

/-- Classifier: a `resolv::get_addresses` call, the first step of every
`sentinel_connection`. -/
def Event.is_get_addresses : Event → Bool
  | .get_addresses _ => true
  | _ => false

/-- The connect attempts to the addresses of `l`, in order. -/
def tries (l : List (String × Nat)) : List Event :=
  l.map (fun a => Event.create a.1 a.2)

/-- Every address of the list, tried in order starting from history `t`, is
refused at the moment it is tried. -/
def refused_all (env : Env) : List (String × Nat) → List Event → Bool
  | [], _ => true
  | a :: l, t =>
    (env.create t a.1 a.2).isNone && refused_all env l (t ++ [Event.create a.1 a.2])

/-- The resolved endpoints paired with the sentinel port. -/
def endpoints (port : Nat) (addrs : List String) : List (String × Nat) :=
  addrs.map (fun a => (a, port))

/-- The string at position `i` of a record (empty when the record is shorter). -/
def field (r : reply) (i : Nat) : String :=
  match r.elements[i]? with
  | some x => x.str
  | none => ""

/-- The record's state flag (field 9) equals "slave". -/
def flagged_slave (r : reply) : Bool :=
  decide (field r 9 = "slave")

/-- The address a record designates: host from field 3, port from field 5. -/
def record_address (env : Env) (r : reply) : String × Nat :=
  (field r 3, (env.lexical_cast (field r 5)).getD 0)

/-- The addresses of the records flagged "slave", in the order of the list. -/
def slave_targets (env : Env) (records : List reply) : List (String × Nat) :=
  (records.filter flagged_slave).map (record_address env)

/-- The query `SENTINEL slaves <master_name>`. -/
def slaves_query (p : connection_pool) : List String :=
  ["SENTINEL", "slaves", p.master_name]

/-- History of `create_slave_connection` once the reply has been read, for a
sentinel connection `s` obtained at history `t1`. -/
def slaves_history (p : connection_pool) (s : connection) (t1 : List Event) : List Event :=
  t1 ++ [Event.append s (slaves_query p)] ++ [Event.get_reply s]

/-- The records of the reply to the slaves query. -/
def slaves_records (env : Env) (p : connection_pool) (s : connection) (t1 : List Event) :
    List reply :=
  (env.get_reply (t1 ++ [Event.append s (slaves_query p)]) s).elements

/-- The records in the order the shuffle put them. -/
def shuffled_records (env : Env) (p : connection_pool) (s : connection) (t1 : List Event) :
    List reply :=
  env.random_shuffle (slaves_history p s t1) (slaves_records env p s t1)

/-- The address a master reply reports, when it has two elements and the
second one is numeric. -/
def master_address (env : Env) (response : reply) : Option (String × Nat) :=
  match response.elements[0]?, response.elements[1]? with
  | some e0, some e1 => (env.lexical_cast e1.str).map (fun port => (e0.str, port))
  | _, _ => none

/-- The query `SENTINEL get-master-addr-by-name <master_name>`. -/
def master_query (p : connection_pool) : List String :=
  ["SENTINEL", "get-master-addr-by-name", p.master_name]

/-- The events of one failed iteration of the master loop towards address `a`. -/
def failed_round (p : connection_pool) (s : connection) (a : String × Nat) : List Event :=
  [Event.append s (master_query p), Event.get_reply s, Event.create a.1 a.2, Event.sleep 5]

/-- The message of `cannot_find_master`. -/
def too_much_retries (p : connection_pool) : String :=
  "Unable to find master of name: " ++ p.master_name ++ " (too much retries"

/-- The command `SELECT <_database>`. -/
def select_command (p : connection_pool) : List String :=
  ["SELECT", toString p._database]

/-! ## Sample collaborators -/

/-- Value of a string of decimal digits, read left to right. -/
def digits_value : List Char → Nat → Option Nat
  | [], acc => some acc
  | c :: cs, acc =>
    if c.isDigit then digits_value cs (10 * acc + (c.toNat - 48)) else none

/-- A sample `lexical_cast`: non-empty strings of decimal digits are numbers. -/
def decimal_cast (s : String) : Option Nat :=
  match s.data with
  | [] => none
  | cs => digits_value cs 0

/-- A sentinel record as `SENTINEL slaves` lists it: the address at positions
3 and 5, the flags at position 9. -/
def slave_record (host port flags : String) : reply :=
  .array [.string "name", .string (host ++ ":" ++ port), .string "ip", .string host,
    .string "port", .string port, .string "runid", .string "0", .string "flags",
    .string flags]

/-- Sample observation after an erase: the freed node still holds what it
held, so the liveness check reports the connection's own state, `*it` yields
the erased connection and `++it` reaches the element that followed it. -/
def stale_links_intact (connections : List connection) (it : Nat) : stale_use :=
  match connections[it]? with
  | some c => if c.is_valid then .live c else .dead_then it
  | none => .killed

/-- Sample observation after an erase: the liveness check still reports the
connection's own state, but `++it` faults on the freed node. -/
def stale_increment_faults (connections : List connection) (it : Nat) : stale_use :=
  match connections[it]? with
  | some c => if c.is_valid then .live c else .killed
  | none => .killed

/-- A sample environment: the resolver knows the sentinel `10.0.0.1`; exactly
the hosts in `up` accept connections; the sentinel reports the master at
`10.0.0.2:6379` and the slave records `slaves`; nothing is shuffled; the
links of an erased node stay intact. -/
def sample_env (up : List String) (slaves : List reply) : Env where
  after_erase := stale_links_intact
  get_addresses := fun _ _ => ["10.0.0.1"]
  create := fun t host _ =>
    if host ∈ up then some ⟨100 + t.length, .ANY, true⟩ else none
  get_reply := fun t _ =>
    match t.getLast? with
    | some (.append _ ["SENTINEL", "slaves", _]) => .array slaves
    | _ => .array [.string "10.0.0.2", .string "6379"]
  run := fun _ _ _ => .ok (.string "OK")
  lexical_cast := decimal_cast
  random_shuffle := fun _ l => l
  shuffle_perm := fun _ l => List.Perm.refl l

/-- A sample pool with the given database index and cache. -/
def sample_pool (database : Nat) (cache : List connection) : connection_pool :=
  ⟨"sentinel.local", "mymaster", 26379, database, cache⟩

/-- Sample input: three slave records, the first one unreachable, the second
one flagged down, the third one reachable. -/
def three_slaves_env : Env :=
  sample_env ["10.0.0.1", "10.0.0.7"]
    [slave_record "10.0.0.5" "6379" "slave",
     slave_record "10.0.0.6" "6380" "s_down,slave,disconnected",
     slave_record "10.0.0.7" "6381" "slave"]

/-- Sample input: a record flagged "slave" whose port field is not a number,
followed by a reachable slave. -/
def bad_port_env : Env :=
  sample_env ["10.0.0.1", "10.0.0.6"]
    [slave_record "10.0.0.5" "abc" "slave", slave_record "10.0.0.6" "6379" "slave"]

/-- Sample input: the only record has a single field. -/
def short_record_env : Env :=
  sample_env ["10.0.0.1"] [.array [.string "name"]]

/-- Sample input: the only record is flagged "slave" with a non-numeric port,
and no host but the sentinel accepts connections. -/
def lone_bad_port_env : Env :=
  sample_env ["10.0.0.1"] [slave_record "10.0.0.5" "abc" "slave"]

/-- Sample input: no slave accepts connections. -/
def slaves_down_env : Env :=
  sample_env ["10.0.0.1"]
    [slave_record "10.0.0.5" "6379" "slave", slave_record "10.0.0.6" "6380" "slave"]

/-- The sentinel connection the sample environments hand out from the empty
history. -/
def sample_sentinel : connection := ⟨101, .ANY, true⟩

/-- The history after the sample sentinel connection has been obtained. -/
def sample_sentinel_history : List Event :=
  [Event.get_addresses "sentinel.local", Event.create "10.0.0.1" 26379]

/-- Sample input: the sentinel is reachable, the master it reports is not. -/
def master_down_env : Env :=
  sample_env ["10.0.0.1"] []

/-- Sample cache entry: a dead connection tagged MASTER. -/
def stale_master : connection := ⟨1, .MASTER, false⟩

/-- Sample cache entry: a live connection tagged SLAVE. -/
def live_slave : connection := ⟨2, .SLAVE, true⟩

/-- Sample cache entry: a live connection tagged MASTER. -/
def live_master : connection := ⟨3, .MASTER, true⟩

/-- Sample cache entry: a dead connection tagged SLAVE. -/
def stale_slave : connection := ⟨7, .SLAVE, false⟩

/-- Sample input: one reachable slave at `10.0.0.5:6379`. -/
def one_slave_env : Env :=
  sample_env ["10.0.0.1", "10.0.0.5"] [slave_record "10.0.0.5" "6379" "slave"]

/-- Sample input: the sentinel lists no slave and the master is reachable. -/
def no_slave_env : Env :=
  sample_env ["10.0.0.1", "10.0.0.2"] []

/-- Sample input: no sentinel accepts connections. -/
def sentinel_down_env : Env :=
  sample_env [] []

/-- Sample input: one reachable slave, and the advance of an erased iterator
faults. -/
def one_slave_fault_env : Env :=
  { one_slave_env with after_erase := stale_increment_faults }

/-- Sample input: the advance of an erased iterator faults. -/
def increment_fault_env : Env :=
  { master_down_env with after_erase := stale_increment_faults }

/-- Sample input: the resolver returns three sentinels, of which the first
one refuses connections. -/
def three_sentinels_env : Env :=
  { sample_env ["10.0.0.12", "10.0.0.13"] [] with
    get_addresses := fun _ _ => ["10.0.0.11", "10.0.0.12", "10.0.0.13"] }

/-- Sample input: two reachable slaves and a shuffle that reverses the list. -/
def reversing_env : Env :=
  { sample_env ["10.0.0.1", "10.0.0.5", "10.0.0.6"]
      [slave_record "10.0.0.5" "6379" "slave", slave_record "10.0.0.6" "6380" "slave"] with
    random_shuffle := fun _ l => l.reverse
    shuffle_perm := fun _ l => List.reverse_perm l }

/-! ## Lemmas on the discovery loops -/

theorem refused_all_append (env : Env) :
    ∀ (l1 l2 : List (String × Nat)) (t : List Event),
    refused_all env (l1 ++ l2) t
      = (refused_all env l1 t && refused_all env l2 (t ++ tries l1)) := by
  intro l1
  induction l1 with
  | nil => intro l2 t; simp [refused_all, tries]
  | cons a l1 ih =>
    intro l2 t
    simp [refused_all, ih, tries, List.append_assoc, Bool.and_assoc]

theorem sentinel_foreach_spec (env : Env) (port : Nat) :
    ∀ (l : List String) (t0 : List Event),
    (∃ pre a post c, l = pre ++ a :: post ∧ refused_all env (endpoints port pre) t0 = true ∧
        env.create (t0 ++ tries (endpoints port pre)) a port = some c ∧
        sentinel_foreach env port l t0
          = (.ok c, t0 ++ tries (endpoints port pre) ++ [Event.create a port]))
    ∨ (refused_all env (endpoints port l) t0 = true ∧
        sentinel_foreach env port l t0
          = (.error (.cannot_find_sentinel "Cannot find sentinel"),
              t0 ++ tries (endpoints port l))) := by
  intro l
  induction l with
  | nil => intro t0; right; simp [refused_all, sentinel_foreach, tries, endpoints]
  | cons a l ih =>
    intro t0
    cases hc : env.create t0 a port with
    | some c =>
      left
      refine ⟨[], a, l, c, rfl, rfl, ?_, ?_⟩
      · simpa [tries, endpoints] using hc
      · simp [sentinel_foreach, hc, tries, endpoints]
    | none =>
      rcases ih (t0 ++ [Event.create a port]) with ⟨pre, b, post, c, hl, hr, hcb, hs⟩ | ⟨hr, hs⟩
      · left
        refine ⟨a :: pre, b, post, c, by simp [hl], ?_, ?_, ?_⟩
        · simpa [refused_all, endpoints, hc] using hr
        · simpa [tries, endpoints, List.append_assoc] using hcb
        · simpa [sentinel_foreach, hc, tries, endpoints, List.append_assoc] using hs
      · right
        refine ⟨?_, ?_⟩
        · simpa [refused_all, endpoints, hc] using hr
        · simpa [sentinel_foreach, hc, tries, endpoints, List.append_assoc] using hs

theorem vector_at_field (r : reply) (i : Nat) (h : i < r.elements.length) :
    ∃ x, vector_at r.elements i = .ok x ∧ field r i = x.str := by
  have hx : r.elements[i]? = some r.elements[i] := List.getElem?_eq_getElem h
  exact ⟨r.elements[i], by simp [vector_at, hx], by simp [field, hx]⟩

theorem slaves_loop_spec (env : Env) :
    ∀ (l : List reply) (t0 : List Event),
    (∀ r ∈ l, 10 ≤ r.elements.length) →
    (∀ r ∈ l, flagged_slave r = true → (env.lexical_cast (field r 5)).isSome = true) →
    (∃ pre r post c, l.filter flagged_slave = pre ++ r :: post ∧
        refused_all env (pre.map (record_address env)) t0 = true ∧
        env.create (t0 ++ tries (pre.map (record_address env)))
          (record_address env r).1 (record_address env r).2 = some c ∧
        slaves_loop env l t0
          = (.ok c, t0 ++ tries (pre.map (record_address env))
              ++ [Event.create (record_address env r).1 (record_address env r).2]))
    ∨ (refused_all env (slave_targets env l) t0 = true ∧
        slaves_loop env l t0
          = (.error .cannot_find_slave, t0 ++ tries (slave_targets env l))) := by
  intro l
  induction l with
  | nil => intro t0 _ _; right; simp [refused_all, slaves_loop, tries, slave_targets]
  | cons r l ih =>
    intro t0 hlen hport
    have hlen' : ∀ r ∈ l, 10 ≤ r.elements.length := fun x hx => hlen x (List.mem_cons_of_mem _ hx)
    have hport' : ∀ r ∈ l, flagged_slave r = true → (env.lexical_cast (field r 5)).isSome = true :=
      fun x hx => hport x (List.mem_cons_of_mem _ hx)
    have hr := hlen r (List.mem_cons_self _ _)
    obtain ⟨x9, h9, f9⟩ := vector_at_field r 9 (by omega)
    obtain ⟨x3, h3, f3⟩ := vector_at_field r 3 (by omega)
    obtain ⟨x5, h5, f5⟩ := vector_at_field r 5 (by omega)
    by_cases hflag : x9.str = "slave"
    · have hfs : flagged_slave r = true := by simp [flagged_slave, f9, hflag]
      have hp := hport r (List.mem_cons_self _ _) hfs
      obtain ⟨port, hcast⟩ := Option.isSome_iff_exists.mp hp
      have haddr : record_address env r = (x3.str, port) := by
        simp [record_address, f3, hcast]
      rw [f5] at hcast
      cases hc : env.create t0 x3.str port with
      | some c =>
        left
        refine ⟨[], r, l.filter flagged_slave, c, by simp [List.filter, hfs], rfl, ?_, ?_⟩
        · simpa [tries, haddr] using hc
        · simp [slaves_loop, h9, h3, h5, hflag, hcast, hc, tries, haddr]
      | none =>
        rcases ih (t0 ++ [Event.create x3.str port]) hlen' hport' with
          ⟨pre, b, post, c, hl, hr, hcb, hs⟩ | ⟨hr, hs⟩
        · left
          refine ⟨r :: pre, b, post, c, by simp [List.filter, hfs, hl], ?_, ?_, ?_⟩
          · simpa [refused_all, haddr, hc] using hr
          · simpa [tries, haddr, List.append_assoc] using hcb
          · simpa [slaves_loop, h9, h3, h5, hflag, hcast, hc, tries, haddr,
              List.append_assoc] using hs
        · right
          refine ⟨?_, ?_⟩
          · simpa [slave_targets, List.filter, hfs, refused_all, haddr, hc] using hr
          · simpa [slaves_loop, h9, h3, h5, hflag, hcast, hc, tries, haddr, slave_targets,
              List.filter, hfs, List.append_assoc] using hs
    · have hfs : flagged_slave r = false := by simp [flagged_slave, f9, hflag]
      rcases ih t0 hlen' hport' with ⟨pre, b, post, c, hl, hr, hcb, hs⟩ | ⟨hr, hs⟩
      · left
        refine ⟨pre, b, post, c, by simp [List.filter, hfs, hl], hr, hcb, ?_⟩
        simpa [slaves_loop, h9, hflag] using hs
      · right
        refine ⟨?_, ?_⟩
        · simpa [slave_targets, List.filter, hfs] using hr
        · simpa [slaves_loop, h9, hflag, slave_targets, List.filter, hfs] using hs

theorem master_address_eq_some (env : Env) (r : reply) (a : String × Nat)
    (h : master_address env r = some a) :
    ∃ e0 e1, vector_at r.elements 0 = .ok e0 ∧ vector_at r.elements 1 = .ok e1 ∧
      env.lexical_cast e1.str = some a.2 ∧ e0.str = a.1 := by
  unfold master_address at h
  cases h0 : r.elements[0]? with
  | none => simp [h0] at h
  | some e0 =>
    cases h1 : r.elements[1]? with
    | none => simp [h0, h1] at h
    | some e1 =>
      simp only [h0, h1] at h
      cases hc : env.lexical_cast e1.str with
      | none => simp [hc] at h
      | some port =>
        simp only [hc, Option.map_some', Option.some.injEq] at h
        subst h
        exact ⟨e0, e1, by simp [vector_at, h0], by simp [vector_at, h1], hc, rfl⟩

theorem master_while_down (env : Env) (p : connection_pool) (s : connection)
    (hdown : ∀ h, ∃ a,
      master_address env (env.get_reply (h ++ [Event.append s (master_query p)]) s) = some a ∧
      env.create (h ++ [Event.append s (master_query p)] ++ [Event.get_reply s]) a.1 a.2 = none) :
    ∀ (n : Nat) (t : List Event), ∃ addrs : List (String × Nat), addrs.length = n ∧
      master_while env p s n t
        = (.error (.cannot_find_master (too_much_retries p)),
            t ++ (addrs.map (failed_round p s)).flatten) := by
  intro n
  induction n with
  | zero => intro t; exact ⟨[], rfl, by simp [master_while, too_much_retries]⟩
  | succ n ih =>
    intro t
    obtain ⟨a, ha, hc⟩ := hdown t
    obtain ⟨e0, e1, h0, h1, hcast, hip⟩ := master_address_eq_some env _ a ha
    obtain ⟨addrs, hlen, hres⟩ := ih (t ++ failed_round p s a)
    refine ⟨a :: addrs, by simp [hlen], ?_⟩
    simp only [master_query] at h0 h1 hc
    simp only [master_while, h0, h1, hcast, hip, hc]
    simpa [failed_round, master_query, List.append_assoc] using hres

theorem count_failed_rounds (p : connection_pool) (s : connection) :
    ∀ addrs : List (String × Nat),
      ((addrs.map (failed_round p s)).flatten).countP Event.is_append = addrs.length
      ∧ ((addrs.map (failed_round p s)).flatten).countP Event.is_create = addrs.length
      ∧ ((addrs.map (failed_round p s)).flatten).countP Event.is_sleep = addrs.length
      ∧ ((addrs.map (failed_round p s)).flatten).countP Event.is_get_addresses = 0 := by
  intro addrs
  induction addrs with
  | nil => simp
  | cons a addrs ih =>
    obtain ⟨h1, h2, h3, h4⟩ := ih
    simp [failed_round, List.countP_cons, Event.is_append, Event.is_create, Event.is_sleep,
      Event.is_get_addresses, h1, h2, h3, h4, List.countP_append]

theorem create_slave_connection_unfold (env : Env) (p : connection_pool) (t : List Event)
    (s : connection) (t1 : List Event) (hs : sentinel_connection env p t = (.ok s, t1)) :
    create_slave_connection env p t
      = slaves_loop env (shuffled_records env p s t1) (slaves_history p s t1) := by
  simp [create_slave_connection, hs, shuffled_records, slaves_history, slaves_records,
    slaves_query]

theorem shuffled_records_mem (env : Env) (p : connection_pool) (s : connection)
    (t1 : List Event) (r : reply) :
    r ∈ shuffled_records env p s t1 ↔ r ∈ slaves_records env p s t1 :=
  (env.shuffle_perm _ _).mem_iff

/-! ## Lemmas on the cache scan and on `get` -/

theorem erase_loop_fuel (env : Env) :
    ∀ (fuel : Nat) (connections : List connection) (it : Nat),
      connections.length ≤ fuel →
      erase_loop env fuel connections it
        = erase_loop env connections.length connections it := by
  intro fuel
  induction fuel with
  | zero =>
    intro connections it h
    have h0 : connections.length = 0 := Nat.le_zero.mp h
    rw [h0]
  | succ fuel ih =>
    intro connections it h
    cases hlen : connections.length with
    | zero =>
      have hnil : connections = [] := List.length_eq_zero.mp hlen
      subst hnil
      simp [erase_loop]
    | succ n =>
      cases hget : connections[it]? with
      | none => simp [erase_loop, hget]
      | some c =>
        have hit : it < connections.length := by
          by_contra hge
          rw [List.getElem?_eq_none (Nat.le_of_not_lt hge)] at hget
          exact Option.noConfusion hget
        have hlen1 : (connections.eraseIdx it).length = n := by
          rw [List.length_eraseIdx, if_pos hit, hlen]; rfl
        cases hobs : env.after_erase connections it with
        | killed => simp [erase_loop, hget, hobs]
        | live c1 => simp [erase_loop, hget, hobs]
        | dead_then it1 =>
          simp only [erase_loop, hget, hobs]
          rw [ih (connections.eraseIdx it) it1 (by rw [hlen1]; omega), hlen1]

theorem find_if_append (pred : connection → Bool) :
    ∀ l : List connection, (find_if pred l).1 ++ (find_if pred l).2 = l := by
  intro l
  induction l with
  | nil => rfl
  | cons c l ih =>
    by_cases hc : pred c = true
    · simp [find_if, hc]
    · simp [find_if, hc, ih]

theorem scan_start_append (type : role_t) (l : List connection) :
    (scan_start type l).1 ++ (scan_start type l).2 = l := by
  cases type <;> simp [scan_start, find_if_append]

theorem scan_start_position (type : role_t) (l : List connection) :
    l[(scan_start type l).1.length]? = (scan_start type l).2.head? := by
  have h := scan_start_append type l
  generalize (scan_start type l).1 = before at h
  generalize (scan_start type l).2 = rest at h
  subst h
  cases rest with
  | nil => simp
  | cons c rest =>
    rw [List.getElem?_append_right (Nat.le_refl _)]
    simp

theorem get_hit (env : Env) (p : connection_pool) (type : role_t) (t : List Event)
    (c : connection) (h : (cache_scan env type p.connections).1 = .ok (some c)) :
    get env p type t
      = (.ok c, { p with connections := (cache_scan env type p.connections).2 }, t) := by
  simp [get, h]

theorem get_miss (env : Env) (p : connection_pool) (type : role_t) (t : List Event)
    (h : (cache_scan env type p.connections).1 = .ok none) :
    get env p type t
      = ((select_db env p (create_switch env p type t)).1,
          { p with connections := (cache_scan env type p.connections).2 },
          (select_db env p (create_switch env p type t)).2) := by
  simp [get, h]

theorem select_db_ok (env : Env) (p : connection_pool)
    (r : Except error connection × List Event) (c : connection)
    (h : (select_db env p r).1 = .ok c) : ∃ t1, r = (.ok c, t1) := by
  obtain ⟨x, t1⟩ := r
  cases x with
  | error e => simp [select_db] at h
  | ok c0 =>
    refine ⟨t1, ?_⟩
    by_cases hdb : p._database = 0
    · simp [select_db, hdb] at h
      rw [h]
    · cases hrun : env.run t1 c0 ["SELECT", toString p._database] with
      | error e => simp [select_db, hdb, hrun] at h
      | ok v =>
        simp [select_db, hdb, hrun] at h
        rw [h]

theorem set_role_ok (role : role_t) (r : Except error connection × List Event)
    (c : connection) (t1 : List Event) (h : set_role role r = (.ok c, t1)) :
    ∃ c0, r = (.ok c0, t1) ∧ c = { c0 with _role := role } := by
  obtain ⟨x, t0⟩ := r
  cases x with
  | error e => simp [set_role] at h
  | ok c0 =>
    simp only [set_role, Prod.mk.injEq, Except.ok.injEq] at h
    exact ⟨c0, by rw [h.2], h.1.symm⟩

/-! ## Lemmas on the histories -/

theorem sentinel_foreach_history (env : Env) (port : Nat) :
    ∀ (l : List String) (t : List Event), ∃ evs,
      (sentinel_foreach env port l t).2 = t ++ evs ∧ ∀ e ∈ evs, e.is_run = false := by
  intro l
  induction l with
  | nil => intro t; exact ⟨[], by simp [sentinel_foreach], by simp⟩
  | cons a l ih =>
    intro t
    cases hc : env.create t a port with
    | some c =>
      exact ⟨[Event.create a port], by simp [sentinel_foreach, hc], by simp [Event.is_run]⟩
    | none =>
      obtain ⟨evs, h1, h2⟩ := ih (t ++ [Event.create a port])
      refine ⟨Event.create a port :: evs, by simp [sentinel_foreach, hc, h1], ?_⟩
      intro e he
      rcases List.mem_cons.mp he with h | h
      · rw [h]; rfl
      · exact h2 e h

theorem sentinel_connection_history (env : Env) (p : connection_pool) (t : List Event) :
    ∃ evs, (sentinel_connection env p t).2 = t ++ Event.get_addresses p.sentinel_host :: evs
      ∧ ∀ e ∈ evs, e.is_run = false := by
  obtain ⟨evs, h1, h2⟩ := sentinel_foreach_history env p.sentinel_port
    (env.get_addresses t p.sentinel_host) (t ++ [Event.get_addresses p.sentinel_host])
  exact ⟨evs, by simp [sentinel_connection, h1], h2⟩

theorem slaves_loop_history (env : Env) :
    ∀ (l : List reply) (t : List Event), ∃ evs,
      (slaves_loop env l t).2 = t ++ evs ∧ ∀ e ∈ evs, e.is_run = false := by
  intro l
  induction l with
  | nil => intro t; exact ⟨[], by simp [slaves_loop], by simp⟩
  | cons r l ih =>
    intro t
    cases h9 : vector_at r.elements 9 with
    | error e => exact ⟨[], by simp [slaves_loop, h9], by simp⟩
    | ok x9 =>
      by_cases hflag : x9.str = "slave"
      · cases h3 : vector_at r.elements 3 with
        | error e => exact ⟨[], by simp [slaves_loop, h9, hflag, h3], by simp⟩
        | ok x3 =>
          cases h5 : vector_at r.elements 5 with
          | error e => exact ⟨[], by simp [slaves_loop, h9, hflag, h3, h5], by simp⟩
          | ok x5 =>
            cases hcast : env.lexical_cast x5.str with
            | none => exact ⟨[], by simp [slaves_loop, h9, hflag, h3, h5, hcast], by simp⟩
            | some port =>
              cases hc : env.create t x3.str port with
              | some c =>
                exact ⟨[Event.create x3.str port],
                  by simp [slaves_loop, h9, hflag, h3, h5, hcast, hc], by simp [Event.is_run]⟩
              | none =>
                obtain ⟨evs, h1, h2⟩ := ih (t ++ [Event.create x3.str port])
                refine ⟨Event.create x3.str port :: evs,
                  by simp [slaves_loop, h9, hflag, h3, h5, hcast, hc, h1], ?_⟩
                intro e he
                rcases List.mem_cons.mp he with h | h
                · rw [h]; rfl
                · exact h2 e h
      · obtain ⟨evs, h1, h2⟩ := ih t
        exact ⟨evs, by simp [slaves_loop, h9, hflag, h1], h2⟩

theorem master_while_history (env : Env) (p : connection_pool) (s : connection) :
    ∀ (n : Nat) (t : List Event), ∃ evs,
      (master_while env p s n t).2 = t ++ evs ∧ ∀ e ∈ evs, e.is_run = false := by
  intro n
  induction n with
  | zero => intro t; exact ⟨[], by simp [master_while], by simp⟩
  | succ n ih =>
    intro t
    have hq : ∀ e ∈ [Event.append s (master_query p), Event.get_reply s], e.is_run = false := by
      intro e he
      simp only [List.mem_cons, List.mem_singleton, List.not_mem_nil, or_false] at he
      rcases he with h | h <;> (rw [h]; rfl)
    cases h0 : vector_at (env.get_reply (t ++ [Event.append s (master_query p)]) s).elements 0 with
    | error e =>
      exact ⟨[Event.append s (master_query p), Event.get_reply s],
        by simp [master_while, master_query] at h0 ⊢; simp [h0], hq⟩
    | ok e0 =>
      cases h1 : vector_at (env.get_reply (t ++ [Event.append s (master_query p)]) s).elements 1 with
      | error e =>
        exact ⟨[Event.append s (master_query p), Event.get_reply s],
          by simp [master_while, master_query] at h0 h1 ⊢; simp [h0, h1], hq⟩
      | ok e1 =>
        cases hcast : env.lexical_cast e1.str with
        | none =>
          exact ⟨[Event.append s (master_query p), Event.get_reply s],
            by simp [master_while, master_query] at h0 h1 ⊢; simp [h0, h1, hcast], hq⟩
        | some port =>
          cases hc : env.create (t ++ [Event.append s (master_query p)] ++ [Event.get_reply s])
              e0.str port with
          | some c =>
            refine ⟨[Event.append s (master_query p), Event.get_reply s,
              Event.create e0.str port], ?_, ?_⟩
            · simp [master_while, master_query] at h0 h1 hc ⊢; simp [h0, h1, hcast, hc]
            · intro e he
              simp only [List.mem_cons, List.mem_singleton, List.not_mem_nil, or_false] at he
              rcases he with h | h | h <;> (rw [h]; rfl)
          | none =>
            obtain ⟨evs, h2, h3⟩ := ih (t ++ failed_round p s (e0.str, port))
            refine ⟨failed_round p s (e0.str, port) ++ evs, ?_, ?_⟩
            · simp [master_while, master_query, failed_round] at h0 h1 hc h2 ⊢
              simp [h0, h1, hcast, hc, h2]
            · intro e he
              rcases List.mem_append.mp he with h | h
              · simp only [failed_round, List.mem_cons, List.mem_singleton, List.not_mem_nil,
                  or_false] at h
                rcases h with h | h | h | h <;> (rw [h]; rfl)
              · exact h3 e h

theorem create_slave_connection_history (env : Env) (p : connection_pool) (t : List Event) :
    ∃ evs, (create_slave_connection env p t).2
        = t ++ Event.get_addresses p.sentinel_host :: evs
      ∧ ∀ e ∈ evs, e.is_run = false := by
  obtain ⟨evs, h1, h2⟩ := sentinel_connection_history env p t
  cases hs : sentinel_connection env p t with
  | mk x t1 =>
    rw [hs] at h1
    simp only at h1
    cases x with
    | error e => exact ⟨evs, by simp [create_slave_connection, hs, h1], h2⟩
    | ok s =>
      rw [create_slave_connection_unfold env p t s t1 hs]
      obtain ⟨evs2, h3, h4⟩ := slaves_loop_history env (shuffled_records env p s t1)
        (slaves_history p s t1)
      refine ⟨evs ++ [Event.append s (slaves_query p), Event.get_reply s] ++ evs2, ?_, ?_⟩
      · rw [h3, slaves_history, h1]; simp [List.append_assoc]
      · intro e he
        simp only [List.mem_append, List.mem_cons, List.mem_singleton, List.not_mem_nil,
          or_false] at he
        rcases he with (h | h | h) | h
        · exact h2 e h
        · rw [h]; rfl
        · rw [h]; rfl
        · exact h4 e h

theorem create_master_connection_history (env : Env) (p : connection_pool) (t : List Event) :
    ∃ evs, (create_master_connection env p t).2
        = t ++ Event.get_addresses p.sentinel_host :: evs
      ∧ ∀ e ∈ evs, e.is_run = false := by
  obtain ⟨evs, h1, h2⟩ := sentinel_connection_history env p t
  cases hs : sentinel_connection env p t with
  | mk x t1 =>
    rw [hs] at h1
    simp only at h1
    cases x with
    | error e => exact ⟨evs, by simp [create_master_connection, hs, h1], h2⟩
    | ok s =>
      obtain ⟨evs2, h3, h4⟩ := master_while_history env p s 5 t1
      refine ⟨evs ++ evs2, ?_, ?_⟩
      · simp only [create_master_connection, hs]
        rw [h3, h1]; simp [List.append_assoc]
      · intro e he
        rcases List.mem_append.mp he with h | h
        · exact h2 e h
        · exact h4 e h

theorem set_role_history (role : role_t) (r : Except error connection × List Event) :
    (set_role role r).2 = r.2 := by
  obtain ⟨x, t⟩ := r
  cases x <;> rfl

theorem create_switch_history (env : Env) (p : connection_pool) (type : role_t)
    (t : List Event) :
    ∃ evs, (create_switch env p type t).2 = t ++ evs ∧ ∀ e ∈ evs, e.is_run = false := by
  obtain ⟨evs, h1, h2⟩ := create_slave_connection_history env p t
  have hga : ∀ (l : List Event), (∀ e ∈ l, e.is_run = false) →
      ∀ e ∈ Event.get_addresses p.sentinel_host :: l, e.is_run = false := by
    intro l hl e he
    rcases List.mem_cons.mp he with h | h
    · rw [h]; rfl
    · exact hl e h
  cases type with
  | SLAVE =>
    exact ⟨_, by simp only [create_switch, set_role_history]; exact h1, hga evs h2⟩
  | MASTER =>
    obtain ⟨evs', h1', h2'⟩ := create_master_connection_history env p t
    exact ⟨_, by simp only [create_switch, set_role_history]; exact h1', hga evs' h2'⟩
  | ANY =>
    cases hcs : create_slave_connection env p t with
    | mk x t1 =>
      rw [hcs] at h1
      simp only at h1
      cases x with
      | ok c => exact ⟨_, by simp only [create_switch, hcs]; exact h1, hga evs h2⟩
      | error e =>
        cases e with
        | cannot_find_slave =>
          obtain ⟨evs', h1', h2'⟩ := create_master_connection_history env p t1
          refine ⟨(Event.get_addresses p.sentinel_host :: evs)
            ++ (Event.get_addresses p.sentinel_host :: evs'), ?_, ?_⟩
          · simp only [create_switch, hcs, set_role_history]
            rw [h1', h1]; simp [List.append_assoc]
          · intro e he
            rcases List.mem_append.mp he with h | h
            · exact hga evs h2 e h
            · exact hga evs' h2' e h
        | cannot_find_sentinel w =>
          exact ⟨_, by simp only [create_switch, hcs]; exact h1, hga evs h2⟩
        | cannot_find_master w =>
          exact ⟨_, by simp only [create_switch, hcs]; exact h1, hga evs h2⟩
        | out_of_range =>
          exact ⟨_, by simp only [create_switch, hcs]; exact h1, hga evs h2⟩
        | bad_lexical_cast =>
          exact ⟨_, by simp only [create_switch, hcs]; exact h1, hga evs h2⟩
        | connection_error w =>
          exact ⟨_, by simp only [create_switch, hcs]; exact h1, hga evs h2⟩
        | killed =>
          exact ⟨_, by simp only [create_switch, hcs]; exact h1, hga evs h2⟩

theorem select_db_history_ok (env : Env) (p : connection_pool)
    (r : Except error connection × List Event) (c : connection)
    (h : (select_db env p r).1 = .ok c) :
    (p._database ≠ 0 → (select_db env p r).2 = r.2 ++ [Event.run c (select_command p)])
    ∧ (p._database = 0 → (select_db env p r).2 = r.2) := by
  obtain ⟨t1, hr⟩ := select_db_ok env p r c h
  subst hr
  constructor
  · intro hdb
    cases hrun : env.run t1 c ["SELECT", toString p._database] with
    | error e => simp [select_db, hdb, hrun] at h
    | ok v => simp [select_db, hdb, hrun, select_command]
  · intro hdb
    simp [select_db, hdb]

theorem select_db_history (env : Env) (p : connection_pool)
    (r : Except error connection × List Event) :
    ∃ evs, (select_db env p r).2 = r.2 ++ evs ∧ ∀ e ∈ evs, e.is_get_addresses = false := by
  obtain ⟨x, t1⟩ := r
  cases x with
  | error e => exact ⟨[], by simp [select_db], by simp⟩
  | ok c =>
    by_cases hdb : p._database = 0
    · exact ⟨[], by simp [select_db, hdb], by simp⟩
    · cases hrun : env.run t1 c ["SELECT", toString p._database] with
      | error e =>
        exact ⟨[Event.run c ["SELECT", toString p._database]],
          by simp [select_db, hdb, hrun], by simp [Event.is_get_addresses]⟩
      | ok v =>
        exact ⟨[Event.run c ["SELECT", toString p._database]],
          by simp [select_db, hdb, hrun], by simp [Event.is_get_addresses]⟩

/-! ## The claims -/

/-- C6 (sentinel ordering): `sentinel_connection` tries the resolved endpoints
in the resolver's order.  Either the list splits as `pre ++ a :: post` where
every endpoint of `pre` was refused when tried, the connect to `a` succeeded,
the connection to `a` is returned and the history ends with the attempt on `a`
(nothing of `post` is tried); or every endpoint was tried and refused and the
call fails with `cannot_find_sentinel`.  It fails with `cannot_find_sentinel`
exactly when every endpoint is refused, in particular on an empty list. -/
theorem sentinel_connection_ordering (env : Env) (p : connection_pool) (t : List Event) :
    ((∃ pre a post c,
        env.get_addresses t p.sentinel_host = pre ++ a :: post ∧
        refused_all env (endpoints p.sentinel_port pre)
          (t ++ [Event.get_addresses p.sentinel_host]) = true ∧
        env.create (t ++ [Event.get_addresses p.sentinel_host]
          ++ tries (endpoints p.sentinel_port pre)) a p.sentinel_port = some c ∧
        sentinel_connection env p t
          = (.ok c, t ++ [Event.get_addresses p.sentinel_host]
              ++ tries (endpoints p.sentinel_port pre) ++ [Event.create a p.sentinel_port]))
      ∨ (refused_all env (endpoints p.sentinel_port (env.get_addresses t p.sentinel_host))
          (t ++ [Event.get_addresses p.sentinel_host]) = true ∧
        sentinel_connection env p t
          = (.error (.cannot_find_sentinel "Cannot find sentinel"),
              t ++ [Event.get_addresses p.sentinel_host]
                ++ tries (endpoints p.sentinel_port (env.get_addresses t p.sentinel_host)))))
    ∧ ((∃ w, (sentinel_connection env p t).1 = .error (.cannot_find_sentinel w))
        ↔ refused_all env (endpoints p.sentinel_port (env.get_addresses t p.sentinel_host))
            (t ++ [Event.get_addresses p.sentinel_host]) = true)
    ∧ (env.get_addresses t p.sentinel_host = [] →
        sentinel_connection env p t
          = (.error (.cannot_find_sentinel "Cannot find sentinel"),
              t ++ [Event.get_addresses p.sentinel_host])) := by
  have key := sentinel_foreach_spec env p.sentinel_port
    (env.get_addresses t p.sentinel_host) (t ++ [Event.get_addresses p.sentinel_host])
  refine ⟨?_, ?_, ?_⟩
  · simpa [sentinel_connection] using key
  · constructor
    · rintro ⟨w, hw⟩
      rcases key with ⟨pre, a, post, c, _, _, _, hs⟩ | ⟨hr, _⟩
      · simp [sentinel_connection, hs] at hw
      · exact hr
    · intro hr
      rcases key with ⟨pre, a, post, c, hl, hpre, hc, _⟩ | ⟨_, hs⟩
      · exfalso
        rw [hl] at hr
        have hsplit : endpoints p.sentinel_port (pre ++ a :: post)
            = endpoints p.sentinel_port pre ++ (a, p.sentinel_port) :: endpoints p.sentinel_port post := by
          simp [endpoints]
        rw [hsplit, refused_all_append] at hr
        simp only [refused_all, Bool.and_eq_true, Option.isNone_iff_eq_none] at hr
        rw [hr.2.1] at hc
        exact Option.noConfusion hc
      · exact ⟨"Cannot find sentinel", by simp [sentinel_connection, hs]⟩
  · intro h
    simp [sentinel_connection, h, sentinel_foreach]

/-- C6, sample run: of the endpoints A, B, C the first refuses and the second
accepts; A and B are tried in this order, the connection to B is returned and
C is not tried. -/
theorem sentinel_connection_ordering_witness :
    sentinel_connection three_sentinels_env (sample_pool 0 []) []
      = (.ok ⟨102, .ANY, true⟩,
          [Event.get_addresses "sentinel.local", Event.create "10.0.0.11" 26379,
           Event.create "10.0.0.12" 26379])
    ∧ ((∃ w, (sentinel_connection three_sentinels_env (sample_pool 0 []) []).1
          = .error (.cannot_find_sentinel w))
        ↔ refused_all three_sentinels_env
            (endpoints (sample_pool 0 []).sentinel_port
              (three_sentinels_env.get_addresses [] (sample_pool 0 []).sentinel_host))
            ([] ++ [Event.get_addresses (sample_pool 0 []).sentinel_host]) = true) :=
  ⟨rfl, (sentinel_connection_ordering three_sentinels_env (sample_pool 0 []) []).2.1⟩

/-- C5, counterexample: every record has its ten fields and the second record
is flagged "slave" and accepts connections, yet `create_slave_connection`
returns no connection: the port field "abc" of the first record makes
`lexical_cast` throw before any connect is attempted. -/
theorem create_slave_connection_non_numeric_port :
    (∀ r ∈ slaves_records bad_port_env (sample_pool 0 []) sample_sentinel
        sample_sentinel_history, 10 ≤ r.elements.length)
    ∧ (∀ h, (bad_port_env.create h "10.0.0.6" 6379).isSome = true)
    ∧ create_slave_connection bad_port_env (sample_pool 0 []) []
        = (.error .bad_lexical_cast,
            [Event.get_addresses "sentinel.local", Event.create "10.0.0.1" 26379,
             Event.append sample_sentinel ["SENTINEL", "slaves", "mymaster"],
             Event.get_reply sample_sentinel]) := by
  refine ⟨by decide, fun h => rfl, rfl⟩

/-- C5 (amended): when the sentinel is reachable, every record of the reply
has at least ten fields and the port field of every record flagged "slave" is
numeric, `create_slave_connection` tries exactly the records flagged "slave",
in the order of the shuffled list: either the flagged records split as
`pre ++ r :: post` with every record of `pre` refused when tried, the connect
to `r` (host from field 3, port from field 5) accepted, its connection returned
and nothing of `post` tried; or every flagged record was tried and refused and
the call fails with `cannot_find_slave`. -/
theorem create_slave_connection_filtering (env : Env) (p : connection_pool) (t : List Event)
    (s : connection) (t1 : List Event)
    (hs : sentinel_connection env p t = (.ok s, t1))
    (hfields : ∀ r ∈ slaves_records env p s t1, 10 ≤ r.elements.length)
    (hport : ∀ r ∈ slaves_records env p s t1, flagged_slave r = true →
      (env.lexical_cast (field r 5)).isSome = true) :
    (∃ pre r post c,
        (shuffled_records env p s t1).filter flagged_slave = pre ++ r :: post ∧
        (∀ x ∈ pre ++ [r], field x 9 = "slave" ∧ x ∈ slaves_records env p s t1) ∧
        refused_all env (pre.map (record_address env)) (slaves_history p s t1) = true ∧
        env.create (slaves_history p s t1 ++ tries (pre.map (record_address env)))
          (field r 3) (record_address env r).2 = some c ∧
        env.lexical_cast (field r 5) = some (record_address env r).2 ∧
        create_slave_connection env p t
          = (.ok c, slaves_history p s t1 ++ tries (pre.map (record_address env))
              ++ [Event.create (field r 3) (record_address env r).2]))
    ∨ (refused_all env (slave_targets env (shuffled_records env p s t1))
          (slaves_history p s t1) = true ∧
        create_slave_connection env p t
          = (.error .cannot_find_slave,
              slaves_history p s t1
                ++ tries (slave_targets env (shuffled_records env p s t1)))) := by
  have hfields' : ∀ r ∈ shuffled_records env p s t1, 10 ≤ r.elements.length :=
    fun r hr => hfields r ((shuffled_records_mem env p s t1 r).mp hr)
  have hport' : ∀ r ∈ shuffled_records env p s t1, flagged_slave r = true →
      (env.lexical_cast (field r 5)).isSome = true :=
    fun r hr => hport r ((shuffled_records_mem env p s t1 r).mp hr)
  rw [create_slave_connection_unfold env p t s t1 hs]
  rcases slaves_loop_spec env _ (slaves_history p s t1) hfields' hport' with
    ⟨pre, r, post, c, hl, hr, hc, hres⟩ | ⟨hr, hres⟩
  · left
    have hmem : ∀ x ∈ pre ++ [r], field x 9 = "slave" ∧ x ∈ slaves_records env p s t1 := by
      intro x hx
      have hx' : x ∈ (shuffled_records env p s t1).filter flagged_slave := by
        rw [hl]
        simp only [List.mem_append, List.mem_cons, List.mem_singleton] at hx ⊢
        tauto
      rw [List.mem_filter] at hx'
      exact ⟨by simpa [flagged_slave] using hx'.2,
        (shuffled_records_mem env p s t1 x).mp hx'.1⟩
    have hr5 : env.lexical_cast (field r 5) = some (record_address env r).2 := by
      have h1 := hmem r (by simp)
      have h2 := hport r h1.2 (by simp [flagged_slave, h1.1])
      obtain ⟨port, hcast⟩ := Option.isSome_iff_exists.mp h2
      simp [record_address, hcast]
    exact ⟨pre, r, post, c, hl, hmem, hr, hc, hr5, hres⟩
  · right
    exact ⟨hr, hres⟩

/-- C5 (amended), witness: three records, the first refused, the second
flagged down, the third accepted. -/
theorem create_slave_connection_filtering_witness :
    sentinel_connection three_slaves_env (sample_pool 0 []) []
      = (.ok sample_sentinel, sample_sentinel_history)
    ∧ (∀ r ∈ slaves_records three_slaves_env (sample_pool 0 []) sample_sentinel
        sample_sentinel_history, 10 ≤ r.elements.length)
    ∧ (∀ r ∈ slaves_records three_slaves_env (sample_pool 0 []) sample_sentinel
        sample_sentinel_history, flagged_slave r = true →
          (three_slaves_env.lexical_cast (field r 5)).isSome = true)
    ∧ ((∃ pre r post c,
        (shuffled_records three_slaves_env (sample_pool 0 []) sample_sentinel
          sample_sentinel_history).filter flagged_slave = pre ++ r :: post ∧
        (∀ x ∈ pre ++ [r], field x 9 = "slave" ∧
          x ∈ slaves_records three_slaves_env (sample_pool 0 []) sample_sentinel
            sample_sentinel_history) ∧
        refused_all three_slaves_env (pre.map (record_address three_slaves_env))
          (slaves_history (sample_pool 0 []) sample_sentinel sample_sentinel_history) = true ∧
        three_slaves_env.create
          (slaves_history (sample_pool 0 []) sample_sentinel sample_sentinel_history
            ++ tries (pre.map (record_address three_slaves_env)))
          (field r 3) (record_address three_slaves_env r).2 = some c ∧
        three_slaves_env.lexical_cast (field r 5) = some (record_address three_slaves_env r).2 ∧
        create_slave_connection three_slaves_env (sample_pool 0 []) []
          = (.ok c, slaves_history (sample_pool 0 []) sample_sentinel sample_sentinel_history
              ++ tries (pre.map (record_address three_slaves_env))
              ++ [Event.create (field r 3) (record_address three_slaves_env r).2]))
      ∨ (refused_all three_slaves_env
          (slave_targets three_slaves_env
            (shuffled_records three_slaves_env (sample_pool 0 []) sample_sentinel
              sample_sentinel_history))
          (slaves_history (sample_pool 0 []) sample_sentinel sample_sentinel_history) = true ∧
        create_slave_connection three_slaves_env (sample_pool 0 []) []
          = (.error .cannot_find_slave,
              slaves_history (sample_pool 0 []) sample_sentinel sample_sentinel_history
                ++ tries (slave_targets three_slaves_env
                    (shuffled_records three_slaves_env (sample_pool 0 []) sample_sentinel
                      sample_sentinel_history))))) :=
  ⟨rfl, by decide, by decide,
    create_slave_connection_filtering three_slaves_env (sample_pool 0 []) []
      sample_sentinel sample_sentinel_history rfl (by decide) (by decide)⟩

/-- C9, counterexample: with a reachable sentinel and no record yielding a
connection, a record with fewer than ten fields makes `create_slave_connection`
fail with `out_of_range`, and a record flagged "slave" with a non-numeric port
makes it fail with `bad_lexical_cast`; neither failure is `cannot_find_slave`. -/
theorem create_slave_connection_other_failures :
    (sentinel_connection short_record_env (sample_pool 0 []) []).1 = .ok sample_sentinel
    ∧ (create_slave_connection short_record_env (sample_pool 0 []) []).1
        = .error .out_of_range
    ∧ (create_slave_connection short_record_env (sample_pool 0 []) []).1
        ≠ .error .cannot_find_slave
    ∧ (sentinel_connection lone_bad_port_env (sample_pool 0 []) []).1 = .ok sample_sentinel
    ∧ (create_slave_connection lone_bad_port_env (sample_pool 0 []) []).1
        = .error .bad_lexical_cast
    ∧ (create_slave_connection lone_bad_port_env (sample_pool 0 []) []).1
        ≠ .error .cannot_find_slave := by
  refine ⟨rfl, rfl, ?_, rfl, rfl, ?_⟩
  · have h : (create_slave_connection short_record_env (sample_pool 0 []) []).1
        = .error .out_of_range := rfl
    rw [h]; simp
  · have h : (create_slave_connection lone_bad_port_env (sample_pool 0 []) []).1
        = .error .bad_lexical_cast := rfl
    rw [h]; simp

/-- C9 (amended): when the sentinel is reachable, every record of the reply
has at least ten fields and the port field of every record flagged "slave" is
numeric, then: if every record flagged "slave" is refused when it is tried,
`create_slave_connection` fails with `cannot_find_slave` after trying them all;
and whenever it fails, the failure is `cannot_find_slave` and no other. -/
theorem create_slave_connection_failure_kind (env : Env) (p : connection_pool)
    (t : List Event) (s : connection) (t1 : List Event)
    (hs : sentinel_connection env p t = (.ok s, t1))
    (hfields : ∀ r ∈ slaves_records env p s t1, 10 ≤ r.elements.length)
    (hport : ∀ r ∈ slaves_records env p s t1, flagged_slave r = true →
      (env.lexical_cast (field r 5)).isSome = true) :
    (refused_all env (slave_targets env (shuffled_records env p s t1))
        (slaves_history p s t1) = true →
      create_slave_connection env p t
        = (.error .cannot_find_slave,
            slaves_history p s t1 ++ tries (slave_targets env (shuffled_records env p s t1))))
    ∧ (∀ e, (create_slave_connection env p t).1 = .error e → e = .cannot_find_slave) := by
  have hfields' : ∀ r ∈ shuffled_records env p s t1, 10 ≤ r.elements.length :=
    fun r hr => hfields r ((shuffled_records_mem env p s t1 r).mp hr)
  have hport' : ∀ r ∈ shuffled_records env p s t1, flagged_slave r = true →
      (env.lexical_cast (field r 5)).isSome = true :=
    fun r hr => hport r ((shuffled_records_mem env p s t1 r).mp hr)
  rw [create_slave_connection_unfold env p t s t1 hs]
  rcases slaves_loop_spec env _ (slaves_history p s t1) hfields' hport' with
    ⟨pre, r, post, c, hl, hr, hc, hres⟩ | ⟨hr, hres⟩
  · constructor
    · intro hall
      exfalso
      have hsplit : slave_targets env (shuffled_records env p s t1)
          = pre.map (record_address env)
            ++ record_address env r :: post.map (record_address env) := by
        simp [slave_targets, hl]
      rw [hsplit, refused_all_append] at hall
      simp only [refused_all, Bool.and_eq_true, Option.isNone_iff_eq_none] at hall
      rw [hall.2.1] at hc
      exact Option.noConfusion hc
    · intro e he
      rw [hres] at he
      cases he
  · constructor
    · intro _
      exact hres
    · intro e he
      rw [hres] at he
      injection he with he
      exact he.symm

/-- C9 (amended), witness: two records flagged "slave", both refused. -/
theorem create_slave_connection_failure_kind_witness :
    sentinel_connection slaves_down_env (sample_pool 0 []) []
      = (.ok sample_sentinel, sample_sentinel_history)
    ∧ (∀ r ∈ slaves_records slaves_down_env (sample_pool 0 []) sample_sentinel
        sample_sentinel_history, 10 ≤ r.elements.length)
    ∧ (∀ r ∈ slaves_records slaves_down_env (sample_pool 0 []) sample_sentinel
        sample_sentinel_history, flagged_slave r = true →
          (slaves_down_env.lexical_cast (field r 5)).isSome = true)
    ∧ refused_all slaves_down_env
        (slave_targets slaves_down_env
          (shuffled_records slaves_down_env (sample_pool 0 []) sample_sentinel
            sample_sentinel_history))
        (slaves_history (sample_pool 0 []) sample_sentinel sample_sentinel_history) = true
    ∧ create_slave_connection slaves_down_env (sample_pool 0 []) []
        = (.error .cannot_find_slave,
            slaves_history (sample_pool 0 []) sample_sentinel sample_sentinel_history
              ++ tries (slave_targets slaves_down_env
                  (shuffled_records slaves_down_env (sample_pool 0 []) sample_sentinel
                    sample_sentinel_history))) :=
  ⟨rfl, by decide, by decide, by decide,
    (create_slave_connection_failure_kind slaves_down_env (sample_pool 0 []) []
      sample_sentinel sample_sentinel_history rfl (by decide) (by decide)).1 (by decide)⟩

/-- C3, counterexample: the sentinel is reachable and every connect to the
reported master address is refused; `create_master_connection` fails with
`cannot_find_master` after five delays, not four, the last event being the
delay that follows the fifth attempt. -/
theorem create_master_connection_five_delays :
    (sentinel_connection master_down_env (sample_pool 0 []) []).1 = .ok sample_sentinel
    ∧ (∀ h, master_down_env.create h "10.0.0.2" 6379 = none)
    ∧ (create_master_connection master_down_env (sample_pool 0 []) []).1
        = .error (.cannot_find_master
            "Unable to find master of name: mymaster (too much retries")
    ∧ (create_master_connection master_down_env (sample_pool 0 []) []).2.countP
        Event.is_create = 1 + 5
    ∧ (create_master_connection master_down_env (sample_pool 0 []) []).2.countP
        Event.is_sleep = 5
    ∧ (create_master_connection master_down_env (sample_pool 0 []) []).2.countP
        Event.is_sleep ≠ 4
    ∧ (create_master_connection master_down_env (sample_pool 0 []) []).2.getLast?
        = some (Event.sleep 5) := by
  refine ⟨rfl, fun h => rfl, rfl, by decide, by decide, by decide, rfl⟩

/-- C3 (amended): if the sentinel is reachable and, whenever the master query
is sent to it, the sentinel reports a well-formed master address whose connect
attempt is then refused, `create_master_connection` obtains one sentinel connection and then
runs exactly five rounds on it, each made of one get-master-addr-by-name
query, one connect attempt and one delay of 5 (five queries, five attempts,
five delays, the last delay after the last attempt), and fails with
`cannot_find_master`. -/
theorem create_master_connection_retry_bound (env : Env) (p : connection_pool)
    (t : List Event) (s : connection) (t1 : List Event)
    (hs : sentinel_connection env p t = (.ok s, t1))
    (hdown : ∀ h, ∃ a,
      master_address env (env.get_reply (h ++ [Event.append s (master_query p)]) s) = some a ∧
      env.create (h ++ [Event.append s (master_query p)] ++ [Event.get_reply s]) a.1 a.2 = none) :
    ∃ addrs : List (String × Nat), addrs.length = 5 ∧
      create_master_connection env p t
        = (.error (.cannot_find_master (too_much_retries p)),
            t1 ++ (addrs.map (failed_round p s)).flatten)
      ∧ (((create_master_connection env p t).2.drop t1.length).countP
          Event.is_get_addresses = 0)
      ∧ (((create_master_connection env p t).2.drop t1.length).countP Event.is_append = 5)
      ∧ (((create_master_connection env p t).2.drop t1.length).countP Event.is_create = 5)
      ∧ (((create_master_connection env p t).2.drop t1.length).countP Event.is_sleep = 5) := by
  obtain ⟨addrs, hlen, hres⟩ := master_while_down env p s hdown 5 t1
  have hcm : create_master_connection env p t
      = (.error (.cannot_find_master (too_much_retries p)),
          t1 ++ (addrs.map (failed_round p s)).flatten) := by
    simp [create_master_connection, hs, hres]
  obtain ⟨c1, c2, c3, c4⟩ := count_failed_rounds p s addrs
  refine ⟨addrs, hlen, hcm, ?_, ?_, ?_, ?_⟩ <;>
    simp only [hcm, List.drop_left] <;> simp [c1, c2, c3, c4, hlen]

/-- C3 (amended), witness: the sample sentinel keeps reporting `10.0.0.2:6379`,
which refuses every connect. -/
theorem create_master_connection_retry_bound_witness :
    sentinel_connection master_down_env (sample_pool 0 []) []
      = (.ok sample_sentinel, sample_sentinel_history)
    ∧ (∀ h, ∃ a,
        master_address master_down_env
          (master_down_env.get_reply
            (h ++ [Event.append sample_sentinel (master_query (sample_pool 0 []))])
            sample_sentinel) = some a ∧
        master_down_env.create
          (h ++ [Event.append sample_sentinel (master_query (sample_pool 0 []))]
            ++ [Event.get_reply sample_sentinel]) a.1 a.2 = none)
    ∧ ∃ addrs : List (String × Nat), addrs.length = 5 ∧
      create_master_connection master_down_env (sample_pool 0 []) []
        = (.error (.cannot_find_master (too_much_retries (sample_pool 0 []))),
            sample_sentinel_history
              ++ (addrs.map (failed_round (sample_pool 0 []) sample_sentinel)).flatten)
      ∧ (((create_master_connection master_down_env (sample_pool 0 []) []).2.drop
          sample_sentinel_history.length).countP Event.is_get_addresses = 0)
      ∧ (((create_master_connection master_down_env (sample_pool 0 []) []).2.drop
          sample_sentinel_history.length).countP Event.is_append = 5)
      ∧ (((create_master_connection master_down_env (sample_pool 0 []) []).2.drop
          sample_sentinel_history.length).countP Event.is_create = 5)
      ∧ (((create_master_connection master_down_env (sample_pool 0 []) []).2.drop
          sample_sentinel_history.length).countP Event.is_sleep = 5) :=
  have hdown : ∀ h, ∃ a,
      master_address master_down_env
        (master_down_env.get_reply
          (h ++ [Event.append sample_sentinel (master_query (sample_pool 0 []))])
          sample_sentinel) = some a ∧
      master_down_env.create
        (h ++ [Event.append sample_sentinel (master_query (sample_pool 0 []))]
          ++ [Event.get_reply sample_sentinel]) a.1 a.2 = none := by
    intro h
    refine ⟨("10.0.0.2", 6379), ?_, ?_⟩
    · simp [master_down_env, sample_env, master_query, sample_pool, master_address,
        reply.elements, reply.str]
      decide
    · simp [master_down_env, sample_env]
  ⟨rfl, hdown,
    create_master_connection_retry_bound master_down_env (sample_pool 0 []) []
      sample_sentinel sample_sentinel_history rfl hdown⟩

/-- C1, the code at the failing input: the cache holds a live connection
tagged MASTER.  When the links of the erased node stay intact, `get(MASTER)`
returns the live connection tagged SLAVE that sits between the dead first
MASTER entry and the live one; when the advance of the erased iterator faults,
the process is killed.  In neither run is a live MASTER returned. -/
theorem get_master_hands_out_slave_before_live_master :
    live_master ∈ (sample_pool 0 [stale_master, live_slave, live_master]).connections
    ∧ live_master._role = .MASTER ∧ live_master.is_valid = true
    ∧ get master_down_env (sample_pool 0 [stale_master, live_slave, live_master]) .MASTER []
        = (.ok live_slave, sample_pool 0 [live_master], [])
    ∧ live_slave._role = .SLAVE
    ∧ get increment_fault_env (sample_pool 0 [stale_master, live_slave, live_master])
        .MASTER []
        = (.error .killed, sample_pool 0 [live_slave, live_master], []) := by
  refine ⟨by decide, rfl, rfl, rfl, rfl, rfl⟩

/-- C2, the code at the failing input, with the links of the erased node
intact: after the dead first candidate is discarded the loop moves on to the
next cache entry whatever its tag, so `get(MASTER)` returns a connection tagged
SLAVE and `get(SLAVE)` one tagged MASTER. -/
theorem get_returns_wrong_role_after_dead_candidate :
    get master_down_env (sample_pool 0 [stale_master, live_slave]) .MASTER []
        = (.ok live_slave, sample_pool 0 [], [])
    ∧ live_slave._role ≠ .MASTER
    ∧ get master_down_env (sample_pool 0 [stale_slave, live_master]) .SLAVE []
        = (.ok live_master, sample_pool 0 [], [])
    ∧ live_master._role ≠ .SLAVE := by
  refine ⟨rfl, by decide, rfl, by decide⟩

/-- C8, the code at the failing input: the only cached entry is tagged SLAVE
and dead, and a slave is reachable.  `get(SLAVE)` erases the entry, reads its
liveness through the erased iterator and advances that iterator; when the
advance faults the process is killed: no connection is returned and no slave
creation is attempted (the history stays empty). -/
theorem get_slave_killed_on_stale_entry :
    (sample_pool 0 [stale_slave]).connections = [stale_slave]
    ∧ stale_slave._role = .SLAVE
    ∧ stale_slave.is_valid = false
    ∧ (create_slave_connection one_slave_fault_env (sample_pool 0 [stale_slave]) []).1
        = .ok ⟨104, .ANY, true⟩
    ∧ get one_slave_fault_env (sample_pool 0 [stale_slave]) .SLAVE []
        = (.error .killed, sample_pool 0 [], []) := by
  refine ⟨rfl, rfl, rfl, rfl, rfl⟩

/-- C7 (database selection on creation only): for every role, a connection
returned from the cache is returned with the history unchanged (no command is
issued on it).  A connection returned on the cache-miss path is the one the
creation switch produced; the history then consists of the events of the
creation, none of which is a `run`, followed by exactly one
`SELECT <_database>` run on that connection when `_database` is non-zero, and
by nothing when it is zero. -/
theorem get_select_on_creation_only (env : Env) (p : connection_pool) (type : role_t)
    (t : List Event) :
    (∀ c, (cache_scan env type p.connections).1 = .ok (some c) →
        (get env p type t).1 = .ok c ∧ (get env p type t).2.2 = t)
    ∧ ((cache_scan env type p.connections).1 = .ok none →
        ∀ c, (get env p type t).1 = .ok c →
          ∃ evs, create_switch env p type t = (.ok c, t ++ evs)
            ∧ (∀ e ∈ evs, e.is_run = false)
            ∧ (p._database ≠ 0 →
                (get env p type t).2.2
                  = t ++ evs ++ [Event.run c ["SELECT", toString p._database]])
            ∧ (p._database = 0 → (get env p type t).2.2 = t ++ evs)) := by
  constructor
  · intro c hc
    rw [get_hit env p type t c hc]
    exact ⟨rfl, rfl⟩
  · intro hnone c hc
    rw [get_miss env p type t hnone] at hc ⊢
    simp only at hc ⊢
    obtain ⟨t1, hr⟩ := select_db_ok env p _ c hc
    obtain ⟨evs, h1, h2⟩ := create_switch_history env p type t
    rw [hr] at h1
    simp only at h1
    obtain ⟨hsel1, hsel0⟩ := select_db_history_ok env p _ c hc
    rw [hr] at hsel1 hsel0
    simp only [select_command] at hsel1
    refine ⟨evs, by rw [hr, h1], h2, ?_, ?_⟩
    · intro hdb
      rw [hr, hsel1 hdb, h1]
    · intro hdb
      rw [hr, hsel0 hdb, h1]

/-- C7, sample run with database index 3: on a miss the created slave
connection receives `SELECT 3` after the creation events; on a hit the cached
connection is returned with the history unchanged. -/
theorem get_select_on_creation_only_witness :
    ((cache_scan one_slave_env .SLAVE (sample_pool 3 []).connections).1 = .ok none
      ∧ (get one_slave_env (sample_pool 3 []) .SLAVE []).1 = .ok ⟨104, .SLAVE, true⟩
      ∧ ∃ evs, create_switch one_slave_env (sample_pool 3 []) .SLAVE []
            = (.ok ⟨104, .SLAVE, true⟩, [] ++ evs)
          ∧ (∀ e ∈ evs, e.is_run = false)
          ∧ ((sample_pool 3 [])._database ≠ 0 →
              (get one_slave_env (sample_pool 3 []) .SLAVE []).2.2
                = [] ++ evs ++ [Event.run ⟨104, .SLAVE, true⟩
                    ["SELECT", toString (sample_pool 3 [])._database]])
          ∧ ((sample_pool 3 [])._database = 0 →
              (get one_slave_env (sample_pool 3 []) .SLAVE []).2.2 = [] ++ evs))
    ∧ ((cache_scan one_slave_env .SLAVE (sample_pool 3 [live_slave]).connections).1
        = .ok (some live_slave)
      ∧ (get one_slave_env (sample_pool 3 [live_slave]) .SLAVE []).1 = .ok live_slave
      ∧ (get one_slave_env (sample_pool 3 [live_slave]) .SLAVE []).2.2 = []) :=
  ⟨⟨rfl, rfl,
      (get_select_on_creation_only one_slave_env (sample_pool 3 []) .SLAVE []).2 rfl
        ⟨104, .SLAVE, true⟩ rfl⟩,
    ⟨rfl,
      (get_select_on_creation_only one_slave_env (sample_pool 3 [live_slave]) .SLAVE []).1
        live_slave rfl⟩⟩

/-- C4 (ANY fallback): on an empty cache `get(ANY)` first runs
`create_slave_connection` (its history is a prefix of the history of `get`).
If that returns a connection, `get` continues with it tagged SLAVE and every
connection returned is tagged SLAVE.  If it fails with `cannot_find_slave`,
`get` continues with `create_master_connection` from the history reached, and
every connection returned is tagged MASTER.  If it fails with
`cannot_find_sentinel`, `get` fails with `cannot_find_sentinel` and its history
ends where slave creation ended.  A master creation (recognisable by its
resolver call) follows slave creation if and only if slave creation failed
with `cannot_find_slave`. -/
theorem get_any_fallback (env : Env) (p : connection_pool) (t : List Event)
    (hempty : p.connections = []) :
    (∃ evs, (get env p .ANY t).2.2 = (create_slave_connection env p t).2 ++ evs)
    ∧ (∀ c t1, create_slave_connection env p t = (.ok c, t1) →
        ((get env p .ANY t).1, (get env p .ANY t).2.2)
            = select_db env p (.ok { c with _role := .SLAVE }, t1)
        ∧ ∀ c', (get env p .ANY t).1 = .ok c' → c' = { c with _role := .SLAVE })
    ∧ (∀ t1, create_slave_connection env p t = (.error .cannot_find_slave, t1) →
        ((get env p .ANY t).1, (get env p .ANY t).2.2)
            = select_db env p (set_role .MASTER (create_master_connection env p t1))
        ∧ ∀ c', (get env p .ANY t).1 = .ok c' →
            c'._role = .MASTER ∧ ∃ c0 t2, create_master_connection env p t1 = (.ok c0, t2) ∧
              c' = { c0 with _role := .MASTER })
    ∧ (∀ w t1, create_slave_connection env p t = (.error (.cannot_find_sentinel w), t1) →
        (get env p .ANY t).1 = .error (.cannot_find_sentinel w)
        ∧ (get env p .ANY t).2.2 = t1)
    ∧ ((∃ e ∈ (get env p .ANY t).2.2.drop (create_slave_connection env p t).2.length,
          e.is_get_addresses = true)
        ↔ (create_slave_connection env p t).1 = .error .cannot_find_slave) := by
  have hscan : (cache_scan env .ANY p.connections).1 = .ok none := by
    rw [hempty]; rfl
  have hget := get_miss env p .ANY t hscan
  have h1 : (get env p .ANY t).1 = (select_db env p (create_switch env p .ANY t)).1 := by
    rw [hget]
  have h2 : (get env p .ANY t).2.2 = (select_db env p (create_switch env p .ANY t)).2 := by
    rw [hget]
  rw [h1, h2]
  cases hcs : create_slave_connection env p t with
  | mk x t1 =>
    cases x with
    | ok c =>
      have hsw : create_switch env p .ANY t = (.ok { c with _role := .SLAVE }, t1) := by
        simp [create_switch, hcs]
      rw [hsw]
      obtain ⟨evs, he1, he2⟩ := select_db_history env p (.ok { c with _role := .SLAVE }, t1)
      refine ⟨⟨evs, he1⟩, ?_, ?_, ?_, ?_⟩
      · intro c1 t1' heq
        simp only [Prod.mk.injEq, Except.ok.injEq] at heq
        obtain ⟨hc, ht⟩ := heq
        subst hc; subst ht
        refine ⟨rfl, ?_⟩
        intro c' hc'
        obtain ⟨t2, hr⟩ := select_db_ok env p _ c' hc'
        simp only [Prod.mk.injEq, Except.ok.injEq] at hr
        exact hr.1.symm
      · intro t1' heq; simp at heq
      · intro w t1' heq; simp at heq
      · simp only [he1, List.drop_left]
        constructor
        · rintro ⟨e, hmem, hga⟩
          rw [he2 e hmem] at hga
          exact Bool.noConfusion hga
        · intro h; simp at h
    | error e =>
      by_cases hcfs : e = .cannot_find_slave
      · subst hcfs
        have hsw : create_switch env p .ANY t
            = set_role .MASTER (create_master_connection env p t1) := by
          simp [create_switch, hcs]
        rw [hsw]
        obtain ⟨evs, he1, _⟩ := select_db_history env p
          (set_role .MASTER (create_master_connection env p t1))
        obtain ⟨evm, hm1, _⟩ := create_master_connection_history env p t1
        rw [set_role_history, hm1] at he1
        refine ⟨⟨_, by rw [he1, List.append_assoc]⟩, ?_, ?_, ?_, ?_⟩
        · intro c1 t1' heq; simp at heq
        · intro t1' heq
          simp only [Prod.mk.injEq] at heq
          obtain ⟨_, ht⟩ := heq
          subst ht
          refine ⟨rfl, ?_⟩
          intro c' hc'
          obtain ⟨t2, hr⟩ := select_db_ok env p _ c' hc'
          obtain ⟨c0, h3, h4⟩ := set_role_ok .MASTER _ c' t2 hr
          exact ⟨by rw [h4], c0, t2, h3, h4⟩
        · intro w t1' heq; simp at heq
        · simp only [he1, List.append_assoc, List.drop_left]
          constructor
          · intro _; trivial
          · intro _
            exact ⟨Event.get_addresses p.sentinel_host, by simp, rfl⟩
      · have hsw : create_switch env p .ANY t = (.error e, t1) := by
          cases e with
          | cannot_find_slave => exact absurd rfl hcfs
          | cannot_find_sentinel w => simp [create_switch, hcs]
          | cannot_find_master w => simp [create_switch, hcs]
          | out_of_range => simp [create_switch, hcs]
          | bad_lexical_cast => simp [create_switch, hcs]
          | connection_error w => simp [create_switch, hcs]
          | killed => simp [create_switch, hcs]
        rw [hsw]
        have hsel : select_db env p (.error e, t1) = (.error e, t1) := rfl
        rw [hsel]
        refine ⟨⟨[], by simp⟩, ?_, ?_, ?_, ?_⟩
        · intro c1 t1' heq; simp at heq
        · intro t1' heq
          simp only [Prod.mk.injEq, Except.error.injEq] at heq
          exact absurd heq.1 hcfs
        · intro w t1' heq
          simp only [Prod.mk.injEq, Except.error.injEq] at heq
          obtain ⟨he, ht⟩ := heq
          subst he; subst ht
          exact ⟨rfl, rfl⟩
        · simp only [List.drop_length]
          constructor
          · rintro ⟨e', hmem, _⟩
            exact absurd hmem (List.not_mem_nil e')
          · intro h
            simp only [Except.error.injEq] at h
            exact absurd h hcfs

/-- C4, witness: an empty cache, no slave listed, the master reachable. -/
theorem get_any_fallback_witness :
    (sample_pool 0 []).connections = []
    ∧ ((∃ evs, (get no_slave_env (sample_pool 0 []) .ANY []).2.2
          = (create_slave_connection no_slave_env (sample_pool 0 []) []).2 ++ evs)
      ∧ (∀ c t1, create_slave_connection no_slave_env (sample_pool 0 []) [] = (.ok c, t1) →
          ((get no_slave_env (sample_pool 0 []) .ANY []).1,
            (get no_slave_env (sample_pool 0 []) .ANY []).2.2)
              = select_db no_slave_env (sample_pool 0 []) (.ok { c with _role := .SLAVE }, t1)
          ∧ ∀ c', (get no_slave_env (sample_pool 0 []) .ANY []).1 = .ok c' →
              c' = { c with _role := .SLAVE })
      ∧ (∀ t1, create_slave_connection no_slave_env (sample_pool 0 []) []
            = (.error .cannot_find_slave, t1) →
          ((get no_slave_env (sample_pool 0 []) .ANY []).1,
            (get no_slave_env (sample_pool 0 []) .ANY []).2.2)
              = select_db no_slave_env (sample_pool 0 [])
                  (set_role .MASTER (create_master_connection no_slave_env (sample_pool 0 []) t1))
          ∧ ∀ c', (get no_slave_env (sample_pool 0 []) .ANY []).1 = .ok c' →
              c'._role = .MASTER ∧
              ∃ c0 t2, create_master_connection no_slave_env (sample_pool 0 []) t1 = (.ok c0, t2) ∧
                c' = { c0 with _role := .MASTER })
      ∧ (∀ w t1, create_slave_connection no_slave_env (sample_pool 0 []) []
            = (.error (.cannot_find_sentinel w), t1) →
          (get no_slave_env (sample_pool 0 []) .ANY []).1 = .error (.cannot_find_sentinel w)
          ∧ (get no_slave_env (sample_pool 0 []) .ANY []).2.2 = t1)
      ∧ ((∃ e ∈ (get no_slave_env (sample_pool 0 []) .ANY []).2.2.drop
              (create_slave_connection no_slave_env (sample_pool 0 []) []).2.length,
            e.is_get_addresses = true)
          ↔ (create_slave_connection no_slave_env (sample_pool 0 []) []).1
              = .error .cannot_find_slave)) :=
  ⟨rfl, get_any_fallback no_slave_env (sample_pool 0 []) [] rfl⟩

/-! ## The model on sample runs -/

/-- Sample runs of `get(ANY)` on an empty cache: with a reachable slave the
result is tagged SLAVE; with no slave listed the result is the master, tagged
MASTER, reached through a second sentinel lookup; with no sentinel reachable
the call fails with `cannot_find_sentinel` after the single connect attempt. -/
theorem get_any_sample_runs :
    get one_slave_env (sample_pool 0 []) .ANY []
      = (.ok ⟨104, .SLAVE, true⟩, sample_pool 0 [],
          [Event.get_addresses "sentinel.local", Event.create "10.0.0.1" 26379,
           Event.append sample_sentinel ["SENTINEL", "slaves", "mymaster"],
           Event.get_reply sample_sentinel, Event.create "10.0.0.5" 6379])
    ∧ get no_slave_env (sample_pool 0 []) .ANY []
      = (.ok ⟨108, .MASTER, true⟩, sample_pool 0 [],
          [Event.get_addresses "sentinel.local", Event.create "10.0.0.1" 26379,
           Event.append sample_sentinel ["SENTINEL", "slaves", "mymaster"],
           Event.get_reply sample_sentinel,
           Event.get_addresses "sentinel.local", Event.create "10.0.0.1" 26379,
           Event.append ⟨105, .ANY, true⟩ ["SENTINEL", "get-master-addr-by-name", "mymaster"],
           Event.get_reply ⟨105, .ANY, true⟩, Event.create "10.0.0.2" 6379])
    ∧ get sentinel_down_env (sample_pool 0 []) .ANY []
      = (.error (.cannot_find_sentinel "Cannot find sentinel"), sample_pool 0 [],
          [Event.get_addresses "sentinel.local", Event.create "10.0.0.1" 26379]) := by
  refine ⟨rfl, rfl, rfl⟩

/-- Sample runs with database index 3: a created connection receives
`SELECT 3` as the last event, a cached one receives nothing. -/
theorem get_select_sample_runs :
    get one_slave_env (sample_pool 3 []) .SLAVE []
      = (.ok ⟨104, .SLAVE, true⟩, sample_pool 3 [],
          [Event.get_addresses "sentinel.local", Event.create "10.0.0.1" 26379,
           Event.append sample_sentinel ["SENTINEL", "slaves", "mymaster"],
           Event.get_reply sample_sentinel, Event.create "10.0.0.5" 6379,
           Event.run ⟨104, .SLAVE, true⟩ ["SELECT", "3"]])
    ∧ get one_slave_env (sample_pool 3 [live_slave]) .SLAVE []
      = (.ok live_slave, sample_pool 3 [], []) := by
  refine ⟨rfl, rfl⟩

/-- Sample run of `create_slave_connection` with a reversing shuffle: the
record listed last is tried first and its connection is returned. -/
theorem create_slave_connection_shuffled_run :
    create_slave_connection reversing_env (sample_pool 0 []) []
      = (.ok ⟨104, .ANY, true⟩,
          [Event.get_addresses "sentinel.local", Event.create "10.0.0.1" 26379,
           Event.append sample_sentinel ["SENTINEL", "slaves", "mymaster"],
           Event.get_reply sample_sentinel, Event.create "10.0.0.6" 6380]) := by
  rfl

end redis3m
